import Mathlib

/-!
Shallow embedding of the read-only HTTP query service in `src/app.py`:
a Flask app exposing term/coordinate study lookups, set-difference
("dissociate") variants and a `/test_db` diagnostics route over a
relational store with tables `ns.annotations_terms` and `ns.coordinates`.

Python strings used as raw character data (the `DB_URL` connection
string) are modelled as `List Char`; strings used opaquely (terms,
messages, JSON keys) as `String`.  Machine integers in the store are
modelled as `Int` (Python ints are unbounded, and `study_id` values go
through Python `int()` unchanged).
-/

/-- JSON values as produced by `flask.jsonify`. -/
inductive Json where
  | null : Json
  | bool : Bool → Json
  | int : Int → Json
  | str : String → Json
  | arr : List Json → Json
  | obj : List (String × Json) → Json

/-- One row of `ns.annotations_terms(study_id, contrast_id, term, weight)`.
`contrast_id` and `weight` are carried opaquely; no handler reads them. -/
structure AnnRow where
  study_id : Int
  contrast_id : String
  term : String
  weight : Int
deriving DecidableEq

/-- One row of `ns.coordinates(study_id, geom)`; the 3D point geometry is
represented by its integer x/y/z extractions `ST_X`, `ST_Y`, `ST_Z`. -/
structure CoordRow where
  study_id : Int
  x : Int
  y : Int
  z : Int
deriving DecidableEq

/-- The relational store consumed by the service (schema `ns`).
`ns.metadata` has no fixed schema; its rows are opaque JSON objects. -/
structure Store where
  annotations_terms : List AnnRow
  coordinates : List CoordRow
  metadata : List Json

/-- `SELECT DISTINCT` semantics: deduplicate keeping first occurrences.
(The spec leaves the order of `study_ids` unguaranteed; only membership
and duplicate-freeness matter.) -/
def distinct : List Int → List Int
  | [] => []
  | x :: xs => x :: (distinct xs).filter (fun y => !(y == x))

/-- The SQL statements the service sends to the store, one constructor per
statement in `app.py` (parameters inlined). -/
inductive Sql where
  | setSearchPath : Sql
  | selectVersion : Sql
  | selectStudyIdsByTerm : String → Sql
  | selectStudyIdsByCoords : Int → Int → Int → Sql
  | selectDissociateTerms : String → String → Sql
  | selectDissociateLocations : Int → Int → Int → Int → Int → Int → Sql
  | countCoordinates : Sql
  | countMetadata : Sql
  | countAnnotationsTerms : Sql
  | sampleCoordinates : Sql
  | sampleMetadata : Sql
  | sampleAnnotationsTerms : Sql
deriving DecidableEq

/-- Whether a statement is a read (`SELECT ...`).  Only the diagnostics
route's `SET search_path TO ns, public;` is not a `SELECT`. -/
def Sql.isSelect : Sql → Bool
  | .setSearchPath => false
  | _ => true

/-- `SELECT DISTINCT study_id FROM ns.annotations_terms WHERE term = :term`. -/
def q_studies_by_term (db : Store) (term : String) : List Int :=
  distinct ((db.annotations_terms.filter (fun r => r.term == term)).map
    (fun r => r.study_id))

/-- `SELECT DISTINCT study_id FROM ns.coordinates WHERE ST_X(geom) = :x AND
ST_Y(geom) = :y AND ST_Z(geom) = :z`. -/
def q_studies_by_coords (db : Store) (x y z : Int) : List Int :=
  distinct ((db.coordinates.filter (fun r => r.x == x && r.y == y && r.z == z)).map
    (fun r => r.study_id))

/-- The (non-`DISTINCT`) inner subquery
`SELECT study_id FROM ns.annotations_terms WHERE term = :term_b`. -/
def q_term_subquery (db : Store) (term : String) : List Int :=
  (db.annotations_terms.filter (fun r => r.term == term)).map (fun r => r.study_id)

/-- `SELECT DISTINCT study_id FROM ns.annotations_terms WHERE term = :term_a
AND study_id NOT IN (SELECT study_id FROM ns.annotations_terms WHERE term = :term_b)`. -/
def q_dissociate_terms (db : Store) (term_a term_b : String) : List Int :=
  distinct ((db.annotations_terms.filter
      (fun r => r.term == term_a && !((q_term_subquery db term_b).contains r.study_id))).map
    (fun r => r.study_id))

/-- The inner subquery `SELECT study_id FROM ns.coordinates WHERE
ST_X(geom) = :x2 AND ST_Y(geom) = :y2 AND ST_Z(geom) = :z2`. -/
def q_coords_subquery (db : Store) (x y z : Int) : List Int :=
  (db.coordinates.filter (fun r => r.x == x && r.y == y && r.z == z)).map
    (fun r => r.study_id)

/-- `SELECT DISTINCT study_id FROM ns.coordinates WHERE ... = :x1 ... AND
study_id NOT IN (SELECT study_id FROM ns.coordinates WHERE ... = :x2 ...)`. -/
def q_dissociate_locations (db : Store) (x1 y1 z1 x2 y2 z2 : Int) : List Int :=
  distinct ((db.coordinates.filter
      (fun r => (r.x == x1 && r.y == y1 && r.z == z1) &&
        !((q_coords_subquery db x2 y2 z2).contains r.study_id))).map
    (fun r => r.study_id))

/-- A connection to the store, as seen by one request: either a working
engine over a store state, or one on which every statement execution
raises an exception with message `msg` (connectivity loss, SQL error...). -/
inductive Conn where
  | ok : Store → Conn
  | fail : String → Conn

/-- Result of one handler invocation: HTTP status, JSON body, the
connection after the request (handlers never write), and the SQL
statements that were sent to the store. -/
structure HResult where
  status : Nat
  body : Json
  conn : Conn
  sqls : List Sql

/-- `jsonify({"error": msg}), code` bodies. -/
def errJson (msg : String) : Json :=
  Json.obj [("error", Json.str msg)]

/-- Handler of `GET /terms/<term>/studies` (`get_studies_by_term` in
`app.py`): runs the distinct-study query, answers 404 when no row
matches, 200 with `{term, study_ids}` otherwise; any exception from
execution is caught and answered as 500 `{"error": str(e)}`. -/
def get_studies_by_term (conn : Conn) (term : String) : HResult :=
  match conn with
  | .fail m => ⟨500, errJson m, conn, [Sql.selectStudyIdsByTerm term]⟩
  | .ok db =>
    let study_ids := q_studies_by_term db term
    if study_ids.isEmpty then
      ⟨404, errJson ("Term \x27" ++ term ++ "\x27 not found."), conn,
        [Sql.selectStudyIdsByTerm term]⟩
    else
      ⟨200, Json.obj [("term", Json.str term),
        ("study_ids", Json.arr (study_ids.map Json.int))], conn,
        [Sql.selectStudyIdsByTerm term]⟩

/-- Characters stripped by Python `int(str)`: ASCII whitespace
(`' '`, `\t`, `\n`, `\r`, `\x0b`, `\x0c`). -/
def isPySpace (c : Char) : Bool :=
  c == ' ' || c == '\t' || c == '\n' || c == '\r' || c == '\x0b' || c == '\x0c'

/-- Numeric value of a nonempty ASCII digit string. -/
def digitsVal (cs : List Char) : Nat :=
  cs.foldl (fun acc c => 10 * acc + (c.toNat - '0'.toNat)) 0

/-- Python `int(s)` on a string with no underscores: strip surrounding
whitespace, accept an optional single sign followed by one or more ASCII
digits; anything else raises `ValueError` (`none`).  (Python also accepts
non-ASCII decimal digits; those never occur in this service's inputs.) -/
def pyInt (s : List Char) : Option Int :=
  let cs := ((s.dropWhile isPySpace).reverse.dropWhile isPySpace).reverse
  match cs with
  | [] => none
  | c :: rest =>
    let signed : Int × List Char :=
      if c == '-' then (-1, rest) else if c == '+' then (1, rest) else (1, c :: rest)
    if signed.2 ≠ [] && signed.2.all (fun d => d.isDigit) then
      some (signed.1 * Int.ofNat (digitsVal signed.2))
    else none

/-- Python `coords.split("_")`: split on every underscore, keeping empty
components (`"".split("_") == [""]`, `"_".split("_") == ["", ""]`). -/
def splitUnderscore : List Char → List (List Char)
  | [] => [[]]
  | c :: cs =>
    if c == '_' then [] :: splitUnderscore cs
    else
      match splitUnderscore cs with
      | [] => [[c]]
      | g :: gs => (c :: g) :: gs

/-- `x, y, z = map(int, coords.split("_"))`: succeeds exactly when the
segment splits into exactly three components and each parses as a Python
int; any `ValueError` (bad component or wrong component count) is caught
by the handler and mapped to 400. -/
def parseCoords (coords : String) : Option (Int × Int × Int) :=
  match (splitUnderscore coords.data).mapM pyInt with
  | some [x, y, z] => some (x, y, z)
  | _ => none

/-- Handler of `GET /locations/<coords>/studies`
(`get_studies_by_coordinates` in `app.py`). -/
def get_studies_by_coordinates (conn : Conn) (coords : String) : HResult :=
  match parseCoords coords with
  | none => ⟨400, errJson "Invalid coordinates format. Use x_y_z.", conn, []⟩
  | some (x, y, z) =>
    match conn with
    | .fail m => ⟨500, errJson m, conn, [Sql.selectStudyIdsByCoords x y z]⟩
    | .ok db =>
      let study_ids := q_studies_by_coords db x y z
      if study_ids.isEmpty then
        ⟨404, errJson ("Coordinates [" ++ toString x ++ ", " ++ toString y ++ ", " ++
          toString z ++ "] not found."), conn, [Sql.selectStudyIdsByCoords x y z]⟩
      else
        ⟨200, Json.obj [("coordinates", Json.arr [Json.int x, Json.int y, Json.int z]),
          ("study_ids", Json.arr (study_ids.map Json.int))], conn,
          [Sql.selectStudyIdsByCoords x y z]⟩

/-- Handler of `GET /dissociate/terms/<term_a>/<term_b>`
(`dissociate_terms` in `app.py`). -/
def dissociate_terms (conn : Conn) (term_a term_b : String) : HResult :=
  match conn with
  | .fail m => ⟨500, errJson m, conn, [Sql.selectDissociateTerms term_a term_b]⟩
  | .ok db =>
    let study_ids := q_dissociate_terms db term_a term_b
    if study_ids.isEmpty then
      ⟨404, errJson ("No studies found for \x27" ++ term_a ++ "\x27 without \x27" ++
        term_b ++ "\x27."), conn, [Sql.selectDissociateTerms term_a term_b]⟩
    else
      ⟨200, Json.obj [("term_a", Json.str term_a), ("term_b", Json.str term_b),
        ("study_ids", Json.arr (study_ids.map Json.int))], conn,
        [Sql.selectDissociateTerms term_a term_b]⟩

/-- `"[{x1}, {y1}, {z1}]"` as printed by the f-string in `app.py`. -/
def coordsText (x y z : Int) : String :=
  "[" ++ toString x ++ ", " ++ toString y ++ ", " ++ toString z ++ "]"

/-- Handler of `GET /dissociate/locations/<coords_a>/<coords_b>`
(`dissociate_locations` in `app.py`). -/
def dissociate_locations (conn : Conn) (coords_a coords_b : String) : HResult :=
  match parseCoords coords_a, parseCoords coords_b with
  | some (x1, y1, z1), some (x2, y2, z2) =>
    (match conn with
    | .fail m => ⟨500, errJson m, conn, [Sql.selectDissociateLocations x1 y1 z1 x2 y2 z2]⟩
    | .ok db =>
      let study_ids := q_dissociate_locations db x1 y1 z1 x2 y2 z2
      if study_ids.isEmpty then
        ⟨404, errJson ("No studies found for " ++ coordsText x1 y1 z1 ++ " without " ++
          coordsText x2 y2 z2 ++ "."), conn,
          [Sql.selectDissociateLocations x1 y1 z1 x2 y2 z2]⟩
      else
        ⟨200, Json.obj [("coords_a", Json.arr [Json.int x1, Json.int y1, Json.int z1]),
          ("coords_b", Json.arr [Json.int x2, Json.int y2, Json.int z2]),
          ("study_ids", Json.arr (study_ids.map Json.int))], conn,
          [Sql.selectDissociateLocations x1 y1 z1 x2 y2 z2]⟩)
  | _, _ => ⟨400, errJson "Invalid coordinates format. Use x_y_z.", conn, []⟩

/-- `"postgres://"` as character data. -/
def pgPrefix : List Char := "postgres://".data

/-- `"postgresql://"` as character data. -/
def pgFixedPrefix : List Char := "postgresql://".data

/-- `get_engine()` from `app.py`, applied to the value of the `DB_URL`
environment variable (`none` when unset; `os.getenv` returns the raw
string otherwise).  `if not db_url` raises on an unset or empty value;
then the legacy `postgres://` scheme is normalized to `postgresql://`
and the engine is created on the resulting URL (returned here). -/
def get_engine (db_url_env : Option (List Char)) : Except String (List Char) :=
  match db_url_env with
  | none => .error "Missing DB_URL (or DATABASE_URL) environment variable."
  | some db_url =>
    if db_url.isEmpty then
      .error "Missing DB_URL (or DATABASE_URL) environment variable."
    else if pgPrefix.isPrefixOf db_url then
      .ok (pgFixedPrefix ++ db_url.drop pgPrefix.length)
    else .ok db_url

/-- `payload[k] = v` on a Python dict rendered as an ordered key/value
list: update in place when the key exists, append otherwise. -/
def setKey : List (String × Json) → String → Json → List (String × Json)
  | [], k, v => [(k, v)]
  | (k0, v0) :: rest, k, v =>
    if k0 == k then (k, v) :: rest else (k0, v0) :: setKey rest k v

/-- Key lookup in a JSON object body (`none` on non-objects). -/
def Json.lookup : Json → String → Option Json
  | .obj fields, k =>
    match fields.find? (fun f => f.1 == k) with
    | some f => some f.2
    | none => none
  | _, _ => none

/-- The keys of a JSON object body, in order. -/
def Json.keys : Json → List String
  | .obj fields => fields.map (fun f => f.1)
  | _ => []

/-- The outcome of each statement the `/test_db` handler sends, as decided
by the external store: the dialect name of the engine, then one result or
raised-exception message per statement, in the handler's order. -/
structure DbEnv where
  dialect : String
  searchPath : Except String Unit
  version : Except String String
  coordinates_count : Except String Int
  metadata_count : Except String Int
  annotations_terms_count : Except String Int
  coordinates_sample : Except String (List Json)
  metadata_sample : Except String (List Json)
  annotations_terms_sample : Except String (List Json)

/-- A guarded `LIMIT 3` sample: its inner `try`/`except` degrades a
failure to the empty list. -/
def sampleField (r : Except String (List Json)) : Json :=
  match r with
  | .ok rows => Json.arr rows
  | .error _ => Json.arr []

/-- Handler of `GET /test_db` (`test_db` in `app.py`).  The payload starts
as `{"ok": False, "dialect": ...}`; the schema `SET search_path`, the
version query and the three `COUNT(*)` queries run unguarded inside the
outer `try` (a failure of the connection itself behaves as a failure of
the first statement), each storing its value into the payload; the three
`LIMIT 3` samples are individually guarded; then `ok` is set to `True`
and 200 returned.  The outer `except` returns 500 with `error = str(e)`
added to whatever payload had accumulated. -/
def test_db (env : DbEnv) : Nat × Json :=
  let p0 := [("ok", Json.bool false), ("dialect", Json.str env.dialect)]
  match env.searchPath with
  | .error m => (500, Json.obj (setKey p0 "error" (Json.str m)))
  | .ok _ =>
    match env.version with
    | .error m => (500, Json.obj (setKey p0 "error" (Json.str m)))
    | .ok v =>
      let p1 := setKey p0 "version" (Json.str v)
      match env.coordinates_count with
      | .error m => (500, Json.obj (setKey p1 "error" (Json.str m)))
      | .ok c1 =>
        let p2 := setKey p1 "coordinates_count" (Json.int c1)
        match env.metadata_count with
        | .error m => (500, Json.obj (setKey p2 "error" (Json.str m)))
        | .ok c2 =>
          let p3 := setKey p2 "metadata_count" (Json.int c2)
          match env.annotations_terms_count with
          | .error m => (500, Json.obj (setKey p3 "error" (Json.str m)))
          | .ok c3 =>
            let p4 := setKey p3 "annotations_terms_count" (Json.int c3)
            let p5 := setKey p4 "coordinates_sample" (sampleField env.coordinates_sample)
            let p6 := setKey p5 "metadata_sample" (sampleField env.metadata_sample)
            let p7 := setKey p6 "annotations_terms_sample"
              (sampleField env.annotations_terms_sample)
            (200, Json.obj (setKey p7 "ok" (Json.bool true)))

/-- The integer carried by a JSON number value. -/
def Json.asInt : Json → Option Int
  | .int n => some n
  | _ => none

/-- The `study_ids` list carried by a handler response body: the integer
elements of the `study_ids` field ([] when the field is absent, e.g. on
an error body). -/
def respStudyIds (body : Json) : List Int :=
  match body.lookup "study_ids" with
  | some (Json.arr xs) => xs.filterMap Json.asInt
  | _ => []

lemma mem_distinct {l : List Int} {s : Int} : s ∈ distinct l ↔ s ∈ l := by
  induction l with
  | nil => simp [distinct]
  | cons x xs ih =>
    simp only [distinct, List.mem_cons, List.mem_filter, ih]
    by_cases hx : s = x <;> simp [hx]

lemma distinct_nodup (l : List Int) : (distinct l).Nodup := by
  induction l with
  | nil => simp [distinct]
  | cons x xs ih =>
    simp only [distinct, List.nodup_cons]
    refine ⟨fun hmem => ?_, ih.filter _⟩
    exact absurd (List.of_mem_filter hmem) (by simp)

lemma distinct_eq_nil {l : List Int} : distinct l = [] ↔ l = [] := by
  constructor
  · intro h
    refine List.eq_nil_iff_forall_not_mem.mpr fun a ha => ?_
    exact absurd (mem_distinct.mpr ha) (by simp [h])
  · intro h; simp [h, distinct]

/-- Spec-side description of "study `s` is annotated with `term`": some
row of `ns.annotations_terms` links them. -/
def termStudySet (db : Store) (term : String) (s : Int) : Prop :=
  ∃ r ∈ db.annotations_terms, r.term = term ∧ r.study_id = s

instance (db : Store) (term : String) (s : Int) : Decidable (termStudySet db term s) := by
  unfold termStudySet; infer_instance

lemma mem_q_studies_by_term {db : Store} {term : String} {s : Int} :
    s ∈ q_studies_by_term db term ↔ termStudySet db term s := by
  unfold q_studies_by_term termStudySet
  rw [mem_distinct]
  constructor
  · intro h
    rcases List.mem_map.mp h with ⟨r, hrf, rfl⟩
    rcases List.mem_filter.mp hrf with ⟨hr, hterm⟩
    exact ⟨r, hr, beq_iff_eq.mp hterm, rfl⟩
  · rintro ⟨r, hr, hterm, rfl⟩
    exact List.mem_map.mpr ⟨r, List.mem_filter.mpr ⟨hr, beq_iff_eq.mpr hterm⟩, rfl⟩

lemma mem_q_term_subquery {db : Store} {term : String} {s : Int} :
    s ∈ q_term_subquery db term ↔ termStudySet db term s := by
  unfold q_term_subquery termStudySet
  constructor
  · intro h
    rcases List.mem_map.mp h with ⟨r, hrf, rfl⟩
    rcases List.mem_filter.mp hrf with ⟨hr, hterm⟩
    exact ⟨r, hr, beq_iff_eq.mp hterm, rfl⟩
  · rintro ⟨r, hr, hterm, rfl⟩
    exact List.mem_map.mpr ⟨r, List.mem_filter.mpr ⟨hr, beq_iff_eq.mpr hterm⟩, rfl⟩

lemma mem_q_dissociate_terms {db : Store} {a b : String} {s : Int} :
    s ∈ q_dissociate_terms db a b ↔ termStudySet db a s ∧ ¬termStudySet db b s := by
  unfold q_dissociate_terms
  rw [mem_distinct]
  constructor
  · intro hmem
    rcases List.mem_map.mp hmem with ⟨r, hrf, rfl⟩
    rcases List.mem_filter.mp hrf with ⟨hr, hcond⟩
    rw [Bool.and_eq_true] at hcond
    rcases hcond with ⟨hterm, hnotin⟩
    refine ⟨⟨r, hr, beq_iff_eq.mp hterm, rfl⟩, fun hb => ?_⟩
    have hc : (q_term_subquery db b).contains r.study_id = true :=
      List.elem_iff.mpr (mem_q_term_subquery.mpr hb)
    rw [hc] at hnotin
    exact Bool.false_ne_true hnotin
  · rintro ⟨⟨r, hr, hterm, rfl⟩, hnot⟩
    refine List.mem_map.mpr ⟨r, List.mem_filter.mpr ⟨hr, ?_⟩, rfl⟩
    rw [Bool.and_eq_true]
    refine ⟨beq_iff_eq.mpr hterm, ?_⟩
    have hc : ¬(q_term_subquery db b).contains r.study_id = true :=
      fun h => hnot (mem_q_term_subquery.mp (List.elem_iff.mp h))
    simp only [Bool.not_eq_true] at hc
    rw [hc]
    rfl

lemma filterMap_asInt_map (ids : List Int) :
    (ids.map Json.int).filterMap Json.asInt = ids := by
  induction ids with
  | nil => rfl
  | cons x xs ih => simpa [List.filterMap_cons, Json.asInt] using ih

lemma respStudyIds_err (msg : String) : respStudyIds (errJson msg) = [] := rfl

lemma respStudyIds_terms (db : Store) (term : String) :
    respStudyIds (get_studies_by_term (Conn.ok db) term).body = q_studies_by_term db term := by
  by_cases h : (q_studies_by_term db term).isEmpty = true
  · simp only [get_studies_by_term]
    rw [if_pos h, List.isEmpty_iff.mp h]
    rfl
  · simp only [get_studies_by_term]
    rw [if_neg h]
    induction (q_studies_by_term db term) with
    | nil => rfl
    | cons x xs ih =>
      simpa [respStudyIds, Json.lookup, List.filterMap_cons, Json.asInt] using ih

lemma respStudyIds_dissoc (db : Store) (a b : String) :
    respStudyIds (dissociate_terms (Conn.ok db) a b).body = q_dissociate_terms db a b := by
  by_cases h : (q_dissociate_terms db a b).isEmpty = true
  · simp only [dissociate_terms]
    rw [if_pos h, List.isEmpty_iff.mp h]
    rfl
  · simp only [dissociate_terms]
    rw [if_neg h]
    induction (q_dissociate_terms db a b) with
    | nil => rfl
    | cons x xs ih =>
      simpa [respStudyIds, Json.lookup, List.filterMap_cons, Json.asInt] using ih

/-- A concrete store used by witnesses: terms "fear" (studies 1, 2) and
"pain" (studies 2, 3), with a few coordinate rows. -/
def dbFear : Store :=
  ⟨[⟨1, "c1", "fear", 5⟩, ⟨2, "c4", "fear", 4⟩, ⟨1, "c2", "fear", 3⟩,
    ⟨2, "c9", "pain", 1⟩, ⟨3, "c3", "pain", 2⟩],
   [⟨7, 1, 2, 3⟩, ⟨8, 1, 2, 3⟩, ⟨7, 0, 0, 0⟩], []⟩

/-- Claim C1: for every pair of terms and every store state, the
`study_ids` returned by `GET /dissociate/terms/{a}/{b}` are exactly the
distinct `study_id` values annotated with term `a` minus those annotated
with term `b`, and its result set is disjoint from the result set of
`GET /terms/{b}/studies`. -/
theorem claim_C1 (db : Store) (a b : String) :
    (∀ s : Int, s ∈ respStudyIds (dissociate_terms (Conn.ok db) a b).body ↔
      (s ∈ q_studies_by_term db a ∧ s ∉ q_studies_by_term db b)) ∧
    (respStudyIds (dissociate_terms (Conn.ok db) a b).body).Nodup ∧
    (respStudyIds (dissociate_terms (Conn.ok db) a b).body) ∩
      (respStudyIds (get_studies_by_term (Conn.ok db) b).body) = [] := by
  rw [respStudyIds_dissoc, respStudyIds_terms]
  refine ⟨fun s => ?_, distinct_nodup _, ?_⟩
  · rw [mem_q_dissociate_terms, mem_q_studies_by_term, mem_q_studies_by_term]
  · rw [show (q_dissociate_terms db a b) ∩ (q_studies_by_term db b) =
        (q_dissociate_terms db a b).filter
          (fun s => (q_studies_by_term db b).elem s) from rfl,
      List.filter_eq_nil_iff]
    intro s hs h
    exact (mem_q_dissociate_terms.mp hs).2
      (mem_q_studies_by_term.mp (List.elem_iff.mp h))

/-- Claim C1 witness: on the concrete store, dissociating "fear" from
"pain" keeps exactly study 1 and shares no study with `/terms/pain/studies`. -/
theorem claim_C1_witness :
    (1 ∈ respStudyIds (dissociate_terms (Conn.ok dbFear) "fear" "pain").body ↔
      (1 ∈ q_studies_by_term dbFear "fear" ∧ 1 ∉ q_studies_by_term dbFear "pain")) ∧
    (respStudyIds (dissociate_terms (Conn.ok dbFear) "fear" "pain").body) ∩
      (respStudyIds (get_studies_by_term (Conn.ok dbFear) "pain").body) = [] :=
  ⟨(claim_C1 dbFear "fear" "pain").1 1, (claim_C1 dbFear "fear" "pain").2.2⟩

/-- Claim C2: for every term with at least one annotation row,
`GET /terms/{term}/studies` answers 200 with a body holding the term and
a non-empty, duplicate-free `study_ids` list containing exactly the
`study_id` values linked to that term. -/
theorem claim_C2 (db : Store) (term : String)
    (h : ∃ r ∈ db.annotations_terms, r.term = term) :
    (get_studies_by_term (Conn.ok db) term).status = 200 ∧
    (get_studies_by_term (Conn.ok db) term).body =
      Json.obj [("term", Json.str term),
        ("study_ids", Json.arr ((q_studies_by_term db term).map Json.int))] ∧
    respStudyIds (get_studies_by_term (Conn.ok db) term).body ≠ [] ∧
    (∀ s : Int, s ∈ respStudyIds (get_studies_by_term (Conn.ok db) term).body ↔
      ∃ r ∈ db.annotations_terms, r.term = term ∧ r.study_id = s) ∧
    (respStudyIds (get_studies_by_term (Conn.ok db) term).body).Nodup := by
  obtain ⟨r, hr, hterm⟩ := h
  have hne : q_studies_by_term db term ≠ [] :=
    List.ne_nil_of_mem (mem_q_studies_by_term.mpr ⟨r, hr, hterm, rfl⟩)
  have hEmp : ¬(q_studies_by_term db term).isEmpty = true :=
    fun he => hne (List.isEmpty_iff.mp he)
  refine ⟨?_, ?_, ?_, fun s => ?_, ?_⟩
  · simp only [get_studies_by_term]
    rw [if_neg hEmp]
  · simp only [get_studies_by_term]
    rw [if_neg hEmp]
  · rw [respStudyIds_terms]
    exact hne
  · rw [respStudyIds_terms]
    exact mem_q_studies_by_term
  · rw [respStudyIds_terms]
    exact distinct_nodup _

/-- Claim C2 witness: "fear" is annotated in the concrete store, so the
route answers 200 with a non-empty `study_ids`. -/
theorem claim_C2_witness :
    (∃ r ∈ dbFear.annotations_terms, r.term = "fear") ∧
    (get_studies_by_term (Conn.ok dbFear) "fear").status = 200 ∧
    respStudyIds (get_studies_by_term (Conn.ok dbFear) "fear").body ≠ [] :=
  ⟨by decide, (claim_C2 dbFear "fear" (by decide)).1,
    (claim_C2 dbFear "fear" (by decide)).2.2.1⟩

/-- Claim C9: for every term with no annotation row,
`GET /terms/{term}/studies` answers 404 with `{"error": m}` where `m`
contains the requested term. -/
theorem claim_C9 (db : Store) (term : String)
    (h : ∀ r ∈ db.annotations_terms, r.term ≠ term) :
    (get_studies_by_term (Conn.ok db) term).status = 404 ∧
    ∃ m, (get_studies_by_term (Conn.ok db) term).body = errJson m ∧
      ∃ pre post, m = pre ++ term ++ post := by
  have hnil : q_studies_by_term db term = [] :=
    List.eq_nil_iff_forall_not_mem.mpr fun s hs => by
      obtain ⟨r, hr, hterm, _⟩ := mem_q_studies_by_term.mp hs
      exact h r hr hterm
  have hEmp : (q_studies_by_term db term).isEmpty = true :=
    List.isEmpty_iff.mpr hnil
  refine ⟨?_, "Term \x27" ++ term ++ "\x27 not found.", ?_, "Term \x27",
    "\x27 not found.", rfl⟩
  · simp only [get_studies_by_term]
    rw [if_pos hEmp]
  · simp only [get_studies_by_term]
    rw [if_pos hEmp]

/-- Claim C9 witness: "love" has no annotation row in the concrete store,
so the route answers 404. -/
theorem claim_C9_witness :
    (∀ r ∈ dbFear.annotations_terms, r.term ≠ "love") ∧
    (get_studies_by_term (Conn.ok dbFear) "love").status = 404 :=
  ⟨by decide, (claim_C9 dbFear "love" (by decide)).1⟩

/-- Claim C10: for every term `t` and every store state,
`GET /dissociate/terms/{t}/{t}` answers 404: a term's study set minus
itself is empty, so the success branch is unreachable. -/
theorem claim_C10 (db : Store) (t : String) :
    (dissociate_terms (Conn.ok db) t t).status = 404 := by
  have hnil : q_dissociate_terms db t t = [] :=
    List.eq_nil_iff_forall_not_mem.mpr fun s hs =>
      (mem_q_dissociate_terms.mp hs).2 (mem_q_dissociate_terms.mp hs).1
  simp only [dissociate_terms]
  rw [if_pos (List.isEmpty_iff.mpr hnil)]

/-- Claim C4: the coordinate path segment is parsed by splitting on
underscores; "1_2_3" parses to (1,2,3), and the handler answers 400
exactly when the segment is not three underscore-separated integers
(e.g. "a_b_c"), with a message identifying the expected x_y_z format. -/
theorem claim_C4 :
    parseCoords "1_2_3" = some (1, 2, 3) ∧
    parseCoords "a_b_c" = none ∧
    (∀ (conn : Conn) (coords : String),
      ((get_studies_by_coordinates conn coords).status = 400 ↔
        parseCoords coords = none)) ∧
    (∀ (conn : Conn) (coords : String), parseCoords coords = none →
      (get_studies_by_coordinates conn coords).body =
        errJson "Invalid coordinates format. Use x_y_z.") := by
  refine ⟨by decide, by decide, fun conn coords => ?_, fun conn coords h => ?_⟩
  · constructor
    · intro h400
      cases hp : parseCoords coords with
      | none => rfl
      | some xyz =>
        obtain ⟨x, y, z⟩ := xyz
        exfalso
        cases conn with
        | fail m => simp [get_studies_by_coordinates, hp] at h400
        | ok db =>
          by_cases he : (q_studies_by_coords db x y z).isEmpty = true <;>
            simp [get_studies_by_coordinates, hp, he] at h400
    · intro hp
      simp [get_studies_by_coordinates, hp]
  · simp [get_studies_by_coordinates, h]

/-- Claim C4 witness: "a_b_c" does not parse, and the route answers 400
with the format message, on any connection. -/
theorem claim_C4_witness :
    parseCoords "a_b_c" = none ∧
    (get_studies_by_coordinates (Conn.ok dbFear) "a_b_c").status = 400 ∧
    (get_studies_by_coordinates (Conn.ok dbFear) "a_b_c").body =
      errJson "Invalid coordinates format. Use x_y_z." :=
  ⟨by decide, (claim_C4.2.2.1 (Conn.ok dbFear) "a_b_c").mpr (by decide),
    claim_C4.2.2.2 (Conn.ok dbFear) "a_b_c" (by decide)⟩

/-- Claim C5: on every query route, an exception raised while executing
the query is caught at the handler boundary and answered as a 500
response with body `{"error": m}`, `m` the raw error message; the
handler returns normally (nothing propagates to a framework error page). -/
theorem claim_C5 (m term a b coords ca cb : String)
    (v1 v2 v3 : Int × Int × Int) (h1 : parseCoords coords = some v1)
    (h2 : parseCoords ca = some v2) (h3 : parseCoords cb = some v3) :
    ((get_studies_by_term (Conn.fail m) term).status = 500 ∧
      (get_studies_by_term (Conn.fail m) term).body = errJson m) ∧
    ((get_studies_by_coordinates (Conn.fail m) coords).status = 500 ∧
      (get_studies_by_coordinates (Conn.fail m) coords).body = errJson m) ∧
    ((dissociate_terms (Conn.fail m) a b).status = 500 ∧
      (dissociate_terms (Conn.fail m) a b).body = errJson m) ∧
    ((dissociate_locations (Conn.fail m) ca cb).status = 500 ∧
      (dissociate_locations (Conn.fail m) ca cb).body = errJson m) := by
  obtain ⟨x1, y1, z1⟩ := v1
  obtain ⟨x2, y2, z2⟩ := v2
  obtain ⟨x3, y3, z3⟩ := v3
  refine ⟨⟨rfl, rfl⟩, ?_, ⟨rfl, rfl⟩, ?_⟩
  · simp [get_studies_by_coordinates, h1]
  · simp [dissociate_locations, h2, h3]

/-- Claim C5 witness: with valid coordinate segments and a raising
connection, all four query routes answer 500 with the raw message. -/
theorem claim_C5_witness :
    parseCoords "1_2_3" = some (1, 2, 3) ∧
    (get_studies_by_term (Conn.fail "boom") "fear").status = 500 ∧
    (get_studies_by_coordinates (Conn.fail "boom") "1_2_3").status = 500 ∧
    (dissociate_terms (Conn.fail "boom") "fear" "pain").status = 500 ∧
    (dissociate_locations (Conn.fail "boom") "1_2_3" "4_5_6").status = 500 :=
  ⟨by decide,
    (claim_C5 "boom" "fear" "fear" "pain" "1_2_3" "1_2_3" "4_5_6"
      (1, 2, 3) (1, 2, 3) (4, 5, 6) (by decide) (by decide) (by decide)).1.1,
    (claim_C5 "boom" "fear" "fear" "pain" "1_2_3" "1_2_3" "4_5_6"
      (1, 2, 3) (1, 2, 3) (4, 5, 6) (by decide) (by decide) (by decide)).2.1.1,
    (claim_C5 "boom" "fear" "fear" "pain" "1_2_3" "1_2_3" "4_5_6"
      (1, 2, 3) (1, 2, 3) (4, 5, 6) (by decide) (by decide) (by decide)).2.2.1.1,
    (claim_C5 "boom" "fear" "fear" "pain" "1_2_3" "1_2_3" "4_5_6"
      (1, 2, 3) (1, 2, 3) (4, 5, 6) (by decide) (by decide) (by decide)).2.2.2.1⟩

/-- Claim C6: with the `DB_URL` environment variable absent,
`get_engine()` raises (no engine is ever produced), so no request that
needs the store can be served. -/
theorem claim_C6 :
    get_engine none =
      Except.error "Missing DB_URL (or DATABASE_URL) environment variable." ∧
    ∀ url, get_engine none ≠ Except.ok url :=
  ⟨rfl, fun _ h => Except.noConfusion h⟩

/-- Claim C7: `get_engine()` normalizes the legacy scheme: a connection
string starting with "postgres://" has that prefix replaced by
"postgresql://" with the remainder unchanged; a (present, non-empty)
connection string not starting with that prefix is passed through
unmodified. -/
theorem claim_C7 :
    (∀ rest : List Char,
      get_engine (some (pgPrefix ++ rest)) = Except.ok (pgFixedPrefix ++ rest)) ∧
    (∀ url : List Char, ¬pgPrefix.isPrefixOf url = true → url ≠ [] →
      get_engine (some url) = Except.ok url) := by
  constructor
  · intro rest
    have hne : ¬(pgPrefix ++ rest).isEmpty = true := by
      rw [List.isEmpty_iff]
      exact fun h => absurd (List.append_eq_nil.mp h).1 (by decide)
    have hpre : pgPrefix.isPrefixOf (pgPrefix ++ rest) = true :=
      List.isPrefixOf_iff_prefix.mpr (List.prefix_append _ _)
    simp only [get_engine, if_neg hne, if_pos hpre]
    rw [show pgPrefix.length = 11 from rfl,
      show (11 : Nat) = pgPrefix.length from rfl, List.drop_left]
  · intro url hnp hne
    have hne2 : ¬url.isEmpty = true := by
      rw [List.isEmpty_iff]
      exact hne
    simp only [get_engine, if_neg hne2, if_neg hnp]

/-- Claim C7 witness: a legacy URL is rewritten, a non-legacy one passes
through. -/
theorem claim_C7_witness :
    get_engine (some ("postgres://user@host/db".data)) =
      Except.ok ("postgresql://user@host/db".data) ∧
    (¬pgPrefix.isPrefixOf ("mysql://host/db".data) = true ∧
      get_engine (some ("mysql://host/db".data)) =
        Except.ok ("mysql://host/db".data)) :=
  ⟨by
    have h := claim_C7.1 ("user@host/db".data)
    rwa [show pgPrefix ++ "user@host/db".data = "postgres://user@host/db".data
        from by decide,
      show pgFixedPrefix ++ "user@host/db".data = "postgresql://user@host/db".data
        from by decide] at h,
    ⟨by decide, claim_C7.2 ("mysql://host/db".data) (by decide) (by decide)⟩⟩

lemma term_conn_eq (conn : Conn) (t : String) :
    (get_studies_by_term conn t).conn = conn := by
  cases conn with
  | fail m => rfl
  | ok db =>
    by_cases he : (q_studies_by_term db t).isEmpty = true <;>
      simp [get_studies_by_term, he]

lemma term_sqls_select (conn : Conn) (t : String) :
    (get_studies_by_term conn t).sqls.all Sql.isSelect = true := by
  cases conn with
  | fail m => rfl
  | ok db =>
    by_cases he : (q_studies_by_term db t).isEmpty = true <;>
      simp [get_studies_by_term, he, Sql.isSelect]

lemma coords_conn_eq (conn : Conn) (c : String) :
    (get_studies_by_coordinates conn c).conn = conn := by
  cases hp : parseCoords c with
  | none => simp [get_studies_by_coordinates, hp]
  | some v =>
    obtain ⟨x, y, z⟩ := v
    cases conn with
    | fail m => simp [get_studies_by_coordinates, hp]
    | ok db =>
      by_cases he : (q_studies_by_coords db x y z).isEmpty = true <;>
        simp [get_studies_by_coordinates, hp, he]

lemma coords_sqls_select (conn : Conn) (c : String) :
    (get_studies_by_coordinates conn c).sqls.all Sql.isSelect = true := by
  cases hp : parseCoords c with
  | none => simp [get_studies_by_coordinates, hp]
  | some v =>
    obtain ⟨x, y, z⟩ := v
    cases conn with
    | fail m => simp [get_studies_by_coordinates, hp, Sql.isSelect]
    | ok db =>
      by_cases he : (q_studies_by_coords db x y z).isEmpty = true <;>
        simp [get_studies_by_coordinates, hp, he, Sql.isSelect]

lemma dterms_conn_eq (conn : Conn) (a b : String) :
    (dissociate_terms conn a b).conn = conn := by
  cases conn with
  | fail m => rfl
  | ok db =>
    by_cases he : (q_dissociate_terms db a b).isEmpty = true <;>
      simp [dissociate_terms, he]

lemma dterms_sqls_select (conn : Conn) (a b : String) :
    (dissociate_terms conn a b).sqls.all Sql.isSelect = true := by
  cases conn with
  | fail m => rfl
  | ok db =>
    by_cases he : (q_dissociate_terms db a b).isEmpty = true <;>
      simp [dissociate_terms, he, Sql.isSelect]

lemma dlocs_conn_eq (conn : Conn) (ca cb : String) :
    (dissociate_locations conn ca cb).conn = conn := by
  cases hp1 : parseCoords ca with
  | none => simp [dissociate_locations, hp1]
  | some v1 =>
    obtain ⟨x1, y1, z1⟩ := v1
    cases hp2 : parseCoords cb with
    | none => simp [dissociate_locations, hp1, hp2]
    | some v2 =>
      obtain ⟨x2, y2, z2⟩ := v2
      cases conn with
      | fail m => simp [dissociate_locations, hp1, hp2]
      | ok db =>
        by_cases he : (q_dissociate_locations db x1 y1 z1 x2 y2 z2).isEmpty = true <;>
          simp [dissociate_locations, hp1, hp2, he]

lemma dlocs_sqls_select (conn : Conn) (ca cb : String) :
    (dissociate_locations conn ca cb).sqls.all Sql.isSelect = true := by
  cases hp1 : parseCoords ca with
  | none => simp [dissociate_locations, hp1]
  | some v1 =>
    obtain ⟨x1, y1, z1⟩ := v1
    cases hp2 : parseCoords cb with
    | none => simp [dissociate_locations, hp1, hp2]
    | some v2 =>
      obtain ⟨x2, y2, z2⟩ := v2
      cases conn with
      | fail m => simp [dissociate_locations, hp1, hp2, Sql.isSelect]
      | ok db =>
        by_cases he : (q_dissociate_locations db x1 y1 z1 x2 y2 z2).isEmpty = true <;>
          simp [dissociate_locations, hp1, hp2, he, Sql.isSelect]

/-- Claim C8: every query route is idempotent and side-effect free: the
connection (hence the store) it hands back is the one it received, a
second invocation on that connection returns the identical response, and
every statement it issues is a `SELECT` (no entity is created, mutated
or destroyed). -/
theorem claim_C8 (conn : Conn) (term a b coords ca cb : String) :
    ((get_studies_by_term conn term).conn = conn ∧
      get_studies_by_term ((get_studies_by_term conn term).conn) term =
        get_studies_by_term conn term ∧
      (get_studies_by_term conn term).sqls.all Sql.isSelect = true) ∧
    ((get_studies_by_coordinates conn coords).conn = conn ∧
      get_studies_by_coordinates ((get_studies_by_coordinates conn coords).conn) coords =
        get_studies_by_coordinates conn coords ∧
      (get_studies_by_coordinates conn coords).sqls.all Sql.isSelect = true) ∧
    ((dissociate_terms conn a b).conn = conn ∧
      dissociate_terms ((dissociate_terms conn a b).conn) a b =
        dissociate_terms conn a b ∧
      (dissociate_terms conn a b).sqls.all Sql.isSelect = true) ∧
    ((dissociate_locations conn ca cb).conn = conn ∧
      dissociate_locations ((dissociate_locations conn ca cb).conn) ca cb =
        dissociate_locations conn ca cb ∧
      (dissociate_locations conn ca cb).sqls.all Sql.isSelect = true) :=
  ⟨⟨term_conn_eq conn term, by rw [term_conn_eq], term_sqls_select conn term⟩,
   ⟨coords_conn_eq conn coords, by rw [coords_conn_eq], coords_sqls_select conn coords⟩,
   ⟨dterms_conn_eq conn a b, by rw [dterms_conn_eq], dterms_sqls_select conn a b⟩,
   ⟨dlocs_conn_eq conn ca cb, by rw [dlocs_conn_eq], dlocs_sqls_select conn ca cb⟩⟩

/-- A diagnostics environment whose unguarded
`SELECT COUNT(*) FROM ns.coordinates` raises while the earlier
search-path and version statements succeed. -/
def envCountFail : DbEnv :=
  ⟨"postgresql", .ok (), .ok "PostgreSQL 16.3",
   .error "relation ns.coordinates does not exist", .ok 2, .ok 9,
   .ok [], .ok [], .ok []⟩

/-- A diagnostics environment whose guarded `LIMIT 3` sample of
`ns.coordinates` raises while everything unguarded succeeds. -/
def envSampleFail : DbEnv :=
  ⟨"postgresql", .ok (), .ok "PostgreSQL 16.3", .ok 5, .ok 2, .ok 9,
   .error "geom missing", .ok [], .ok []⟩

/-- Claim C3 counterexample: when a `COUNT(*)` query fails, `/test_db`
does answer 500 with `ok:false`, but its body also carries the `version`
field gathered before the failure, so the body is not the three-field
object `{ok, dialect, error}` the claim states. -/
theorem claim_C3_counterexample :
    (test_db envCountFail).1 = 500 ∧
    (test_db envCountFail).2.lookup "ok" = some (Json.bool false) ∧
    (test_db envCountFail).2.lookup "version" = some (Json.str "PostgreSQL 16.3") ∧
    (test_db envCountFail).2.keys = ["ok", "dialect", "version", "error"] ∧
    (test_db envCountFail).2.keys ≠ ["ok", "dialect", "error"] :=
  ⟨rfl, rfl, rfl, rfl, by decide⟩

/-- Claim C3 (amended): each `LIMIT 3` sample query is individually
guarded, so its failure only degrades the corresponding `*_sample` field
to `[]` while the handler still answers 200 with `ok:true`; failure of
the server-version query yields 500 with exactly
`{ok:false, dialect, error}`; failure of any `COUNT(*)` query yields 500
with a body containing `ok:false`, `dialect` and `error` together with
the fields gathered before the failure. -/
theorem claim_C3_amended (env : DbEnv) (v : String) (c1 c2 c3 : Int) (m : String) :
    (env.searchPath = .ok () → env.version = .ok v →
      env.coordinates_count = .ok c1 → env.metadata_count = .ok c2 →
      env.annotations_terms_count = .ok c3 →
      (test_db env).1 = 200 ∧
      (test_db env).2.lookup "ok" = some (Json.bool true) ∧
      (test_db env).2.lookup "coordinates_sample" =
        some (sampleField env.coordinates_sample) ∧
      (test_db env).2.lookup "metadata_sample" =
        some (sampleField env.metadata_sample) ∧
      (test_db env).2.lookup "annotations_terms_sample" =
        some (sampleField env.annotations_terms_sample)) ∧
    (sampleField (Except.error m) = Json.arr []) ∧
    (env.searchPath = .ok () → env.version = .error m →
      (test_db env).1 = 500 ∧
      (test_db env).2 = Json.obj [("ok", Json.bool false),
        ("dialect", Json.str env.dialect), ("error", Json.str m)]) ∧
    (env.searchPath = .ok () → env.version = .ok v →
      env.coordinates_count = .error m →
      (test_db env).1 = 500 ∧
      (test_db env).2.lookup "ok" = some (Json.bool false) ∧
      (test_db env).2.lookup "dialect" = some (Json.str env.dialect) ∧
      (test_db env).2.lookup "version" = some (Json.str v) ∧
      (test_db env).2.lookup "error" = some (Json.str m)) ∧
    (env.searchPath = .ok () → env.version = .ok v →
      env.coordinates_count = .ok c1 → env.metadata_count = .error m →
      (test_db env).1 = 500 ∧
      (test_db env).2.lookup "ok" = some (Json.bool false) ∧
      (test_db env).2.lookup "dialect" = some (Json.str env.dialect) ∧
      (test_db env).2.lookup "version" = some (Json.str v) ∧
      (test_db env).2.lookup "coordinates_count" = some (Json.int c1) ∧
      (test_db env).2.lookup "error" = some (Json.str m)) ∧
    (env.searchPath = .ok () → env.version = .ok v →
      env.coordinates_count = .ok c1 → env.metadata_count = .ok c2 →
      env.annotations_terms_count = .error m →
      (test_db env).1 = 500 ∧
      (test_db env).2.lookup "ok" = some (Json.bool false) ∧
      (test_db env).2.lookup "dialect" = some (Json.str env.dialect) ∧
      (test_db env).2.lookup "version" = some (Json.str v) ∧
      (test_db env).2.lookup "coordinates_count" = some (Json.int c1) ∧
      (test_db env).2.lookup "metadata_count" = some (Json.int c2) ∧
      (test_db env).2.lookup "error" = some (Json.str m)) := by
  refine ⟨fun hsp hv hc1 hc2 hc3 => ?_, rfl, fun hsp hv => ?_,
    fun hsp hv hc1 => ?_, fun hsp hv hc1 hc2 => ?_, fun hsp hv hc1 hc2 hc3 => ?_⟩
  · refine ⟨?_, ?_, ?_, ?_, ?_⟩ <;>
      simp [test_db, hsp, hv, hc1, hc2, hc3, setKey, Json.lookup]
  · refine ⟨?_, ?_⟩ <;> simp [test_db, hsp, hv, setKey]
  · refine ⟨?_, ?_, ?_, ?_, ?_⟩ <;>
      simp [test_db, hsp, hv, hc1, setKey, Json.lookup]
  · refine ⟨?_, ?_, ?_, ?_, ?_, ?_⟩ <;>
      simp [test_db, hsp, hv, hc1, hc2, setKey, Json.lookup]
  · refine ⟨?_, ?_, ?_, ?_, ?_, ?_, ?_⟩ <;>
      simp [test_db, hsp, hv, hc1, hc2, hc3, setKey, Json.lookup]

/-- Claim C3 witness: a failing guarded sample still yields 200/`ok:true`
with that sample degraded to `[]`; a failing `COUNT(*)` yields 500 with
the raw error message and the `version` field gathered before the
failure. -/
theorem claim_C3_witness :
    (test_db envSampleFail).1 = 200 ∧
    (test_db envSampleFail).2.lookup "ok" = some (Json.bool true) ∧
    (test_db envSampleFail).2.lookup "coordinates_sample" = some (Json.arr []) ∧
    (test_db envCountFail).1 = 500 ∧
    (test_db envCountFail).2.lookup "version" = some (Json.str "PostgreSQL 16.3") ∧
    (test_db envCountFail).2.lookup "error" =
      some (Json.str "relation ns.coordinates does not exist") := by
  have hS := claim_C3_amended envSampleFail "PostgreSQL 16.3" 5 2 9 "geom missing"
  have hC := claim_C3_amended envCountFail "PostgreSQL 16.3" 0 0 0
    "relation ns.coordinates does not exist"
  refine ⟨(hS.1 rfl rfl rfl rfl rfl).1, (hS.1 rfl rfl rfl rfl rfl).2.1, ?_,
    (hC.2.2.2.1 rfl rfl rfl).1, (hC.2.2.2.1 rfl rfl rfl).2.2.2.1,
    (hC.2.2.2.1 rfl rfl rfl).2.2.2.2⟩
  rw [(hS.1 rfl rfl rfl rfl rfl).2.2.1]
  exact congrArg some hS.2.1
